import Mathlib

/-!
Shallow embedding of the brick-availability selection and quorum-safe
fault-injection core of `glustolibs/gluster/brick_libs.py`, together with
proofs about it.

The Python `random` module is modelled as a deterministic tape of natural
numbers (an injected random source): every library call (`shuffle`,
`randint`, `sample`) consumes draws from the tape, and all theorems are
quantified over every tape, so they hold for every possible run of the
randomized code.  Python exceptions are modelled with `Except`;
`None`-valued returns with `Option`.
-/

/-- A deterministic tape standing for the process-wide random source:
position `pos` holds the next raw draw. -/
structure Rng where
  tape : Nat → Nat
  pos : Nat

/-- Consume one raw draw from the tape. -/
def Rng.next (r : Rng) : Nat × Rng :=
  (r.tape r.pos, ⟨r.tape, r.pos + 1⟩)

/-- The Python exceptions the embedded code can raise. -/
inductive PyError where
  | typeError
  | valueError
deriving DecidableEq, Repr

/-- `random.randint(lo, hi)`: a draw in `[lo, hi]` (both inclusive); raises
`ValueError` when the range is empty (`hi < lo`), as CPython does. -/
def randint (lo hi : Int) (r : Rng) : Except PyError (Int × Rng) :=
  if hi < lo then .error .valueError
  else
    let p := r.next
    .ok (lo + (p.1 : Int) % (hi - lo + 1), p.2)

/-- Fuelled worker for `shuffle`: repeatedly extracts the element at a
tape-chosen position.  The fuel is the list length, so it never runs out. -/
def shuffleFuel {α : Type} : Nat → List α → Rng → List α × Rng
  | 0, l, r => (l, r)
  | fuel + 1, l, r =>
    if h : l.length = 0 then (l, r)
    else
      let j := (r.next).1 % l.length
      let q := shuffleFuel fuel (l.eraseIdx j) (r.next).2
      (l.get ⟨j, Nat.mod_lt _ (Nat.pos_of_ne_zero h)⟩ :: q.1, q.2)

/-- `random.shuffle(l)`: a tape-driven permutation of `l`. -/
def shuffle {α : Type} (l : List α) (r : Rng) : List α × Rng :=
  shuffleFuel l.length l r

/-- Worker for `sample`: draws `k` elements at distinct positions, removing
each chosen position before the next draw (sampling without replacement). -/
def sampleFuel {α : Type} : Nat → List α → Rng → List α × Rng
  | 0, _, r => ([], r)
  | k + 1, l, r =>
    if h : l.length = 0 then ([], r)
    else
      let j := (r.next).1 % l.length
      let q := sampleFuel k (l.eraseIdx j) (r.next).2
      (l.get ⟨j, Nat.mod_lt _ (Nat.pos_of_ne_zero h)⟩ :: q.1, q.2)

/-- `random.sample(l, k)`: `k` distinct positions drawn without replacement;
raises `ValueError` when `k` is negative or exceeds the population size. -/
def sample {α : Type} (l : List α) (k : Int) (r : Rng) :
    Except PyError (List α × Rng) :=
  if k < 0 ∨ (l.length : Int) < k then .error .valueError
  else .ok (sampleFuel k.toNat l r)

/-- Python string containment (`needle in hay`) on the character list of a
string: does `needle` occur contiguously inside `hay`? -/
def hasSub (needle : List Char) : List Char → Bool
  | [] => needle.isEmpty
  | c :: rest => needle.isPrefixOf (c :: rest) || hasSub needle rest

/-- Python `needle in hay` for strings. -/
def pyIn (needle hay : String) : Bool :=
  hasSub needle.data hay.data

/-- Python `ceil(x / 2)` for an integer `x` (true float division followed by
`math.ceil`). -/
def pyCeilHalf (x : Int) : Int :=
  -((-x).fdiv 2)

/-- The quorum information dict consumed by the replicated-volume selector:
`is_quorum_applicable`, `quorum_type` (a string or Python `None`) and
`quorum_count` (an integer or Python `None`). -/
structure QuorumInfo where
  is_quorum_applicable : Bool
  quorum_type : Option String
  quorum_count : Option Int

/-- The `offline_bricks_limit` computation inside
`get_bricks_to_bring_offline_from_replicated_volume` (brick_libs.py
lines 799-815), for an applicable quorum.  Mirrors the if/elif chain:

* `if 'fixed' in quorum_type` — evaluating `in` on Python `None` raises
  `TypeError`, so `quorum_type is None` makes the whole chain raise before
  its own `elif quorum_type is None` branch (which would set
  `replica_count - 1`) can ever be reached: that branch is dead code;
* `'fixed'` without a count, and an unrecognized type, abandon the
  selection (the function returns the empty list): modelled as `ok none`;
* otherwise the computed limit is returned as `ok (some limit)`. -/
def offline_bricks_limit (replica_count : Int) (quorum_type : Option String)
    (quorum_count : Option Int) : Except PyError (Option Int) :=
  match quorum_type with
  | none => .error .typeError
  | some qt =>
    if pyIn "fixed" qt then
      match quorum_count with
      | none => .ok none
      | some c => .ok (some (replica_count - c))
    else if pyIn "auto" qt then
      .ok (some (pyCeilHalf replica_count))
    else
      .ok none

/-- The per-subvolume selection loop shared verbatim by the replicated and
the disperse selector: for each subvol, `random.shuffle` it, draw
`random_count = random.randint(1, limit)`, pick
`random.sample(subvol, random_count)` and accumulate the picks. -/
def selectLoop {α : Type} (subvols_list : List (List α)) (limit : Int)
    (r : Rng) : Except PyError (List α × Rng) :=
  match subvols_list with
  | [] => .ok ([], r)
  | subvol :: rest =>
    let s := shuffle subvol r
    match randint 1 limit s.2 with
    | .error e => .error e
    | .ok c =>
      match sample s.1 c.1 c.2 with
      | .error e => .error e
      | .ok p =>
        match selectLoop rest limit p.2 with
        | .error e => .error e
        | .ok q => .ok (p.1 ++ q.1, q.2)

/-- `get_bricks_to_bring_offline_from_replicated_volume` (brick_libs.py
lines 757-830), with the random state threaded explicitly.  The guarded
dict accesses are the `QuorumInfo` fields; when quorum is not applicable
the loop is never entered and the initial empty list is returned. -/
def get_bricks_to_bring_offline_from_replicated_volume_rng
    (subvols_list : List (List String)) (replica_count : Int)
    (quorum_info : QuorumInfo) (r : Rng) :
    Except PyError (List String × Rng) :=
  if quorum_info.is_quorum_applicable then
    match offline_bricks_limit replica_count quorum_info.quorum_type
        quorum_info.quorum_count with
    | .error e => .error e
    | .ok none => .ok ([], r)
    | .ok (some limit) => selectLoop subvols_list limit r
  else
    .ok ([], r)

/-- `get_bricks_to_bring_offline_from_replicated_volume`, final random
state dropped (in Python the random state is ambient). -/
def get_bricks_to_bring_offline_from_replicated_volume
    (subvols_list : List (List String)) (replica_count : Int)
    (quorum_info : QuorumInfo) (r : Rng) : Except PyError (List String) :=
  (get_bricks_to_bring_offline_from_replicated_volume_rng subvols_list
    replica_count quorum_info r).map (fun p => p.1)

/-- `get_bricks_to_bring_offline_from_disperse_volume` (brick_libs.py
lines 833-868): the same shuffle/randint/sample loop with the redundancy
count as the limit. -/
def get_bricks_to_bring_offline_from_disperse_volume_rng
    (subvols_list : List (List String)) (redundancy_count : Int)
    (r : Rng) : Except PyError (List String × Rng) :=
  selectLoop subvols_list redundancy_count r

/-- `get_bricks_to_bring_offline_from_disperse_volume`, final random state
dropped. -/
def get_bricks_to_bring_offline_from_disperse_volume
    (subvols_list : List (List String)) (redundancy_count : Int)
    (r : Rng) : Except PyError (List String) :=
  (get_bricks_to_bring_offline_from_disperse_volume_rng subvols_list
    redundancy_count r).map (fun p => p.1)

/-- Pairwise disjointness of the subvolume groups (two distinct replica or
erasure groups never share a brick). -/
abbrev groupsDisjoint {α : Type} (subvols_list : List (List α)) : Prop :=
  List.Pairwise (fun g1 g2 => ∀ x, x ∈ g1 → x ∉ g2) subvols_list

/-- A value stored in the ad hoc result dicts of
`select_bricks_to_bring_offline`: either a boolean flag or a brick list. -/
inductive PyVal where
  | bool : Bool → PyVal
  | bricks : List String → PyVal
deriving DecidableEq, Repr

/-- A Python dict with string keys in insertion order. -/
abbrev FaultDict := List (String × PyVal)

/-- The structured data the external collaborator queries return for one
node/volume pair: `get_volume_info` (only its `None`-ness is inspected),
`is_tiered_volume`, `get_volume_type_info`, `get_subvols` and
`get_client_quorum_info`, for the plain volume and for both tiers.  The
embedded selectors read these instead of issuing remote commands. -/
structure ClusterEnv where
  volume_info : Option Unit
  is_tiered : Bool
  volume_type : String
  replica_count : Int
  redundancy_count : Int
  volume_subvols : List (List String)
  volume_quorum_info : QuorumInfo
  hot_tier_type : String
  hot_replica_count : Int
  hot_tier_subvols : List (List String)
  hot_tier_quorum_info : QuorumInfo
  cold_tier_type : String
  cold_replica_count : Int
  cold_redundancy_count : Int
  cold_tier_subvols : List (List String)
  cold_tier_quorum_info : QuorumInfo

/-- `select_volume_bricks_to_bring_offline` (brick_libs.py lines 551-598):
dispatch on the volume type string; `Distribute` and every unrecognized
type keep the initial empty list. -/
def select_volume_bricks_to_bring_offline_rng (env : ClusterEnv) (r : Rng) :
    Except PyError (List String × Rng) :=
  if env.is_tiered then .ok ([], r)
  else if env.volume_type = "Distribute" then .ok ([], r)
  else if env.volume_type = "Replicate" ∨
      env.volume_type = "Distributed-Replicate" then
    get_bricks_to_bring_offline_from_replicated_volume_rng env.volume_subvols
      env.replica_count env.volume_quorum_info r
  else if env.volume_type = "Disperse" ∨
      env.volume_type = "Distributed-Disperse" then
    get_bricks_to_bring_offline_from_disperse_volume_rng env.volume_subvols
      env.redundancy_count r
  else .ok ([], r)

/-- `select_volume_bricks_to_bring_offline`, final random state dropped. -/
def select_volume_bricks_to_bring_offline (env : ClusterEnv) (r : Rng) :
    Except PyError (List String) :=
  (select_volume_bricks_to_bring_offline_rng env r).map (fun p => p.1)

/-- `select_hot_tier_bricks_to_bring_offline` (brick_libs.py lines
641-690): only Replicate hot tiers select anything; a Distribute hot tier
and every other type keep the initial empty list. -/
def select_hot_tier_bricks_to_bring_offline_rng (env : ClusterEnv)
    (r : Rng) : Except PyError (List String × Rng) :=
  if !env.is_tiered then .ok ([], r)
  else if env.hot_tier_type = "Replicate" ∨
      env.hot_tier_type = "Distributed-Replicate" then
    get_bricks_to_bring_offline_from_replicated_volume_rng
      env.hot_tier_subvols env.hot_replica_count env.hot_tier_quorum_info r
  else .ok ([], r)

/-- `select_cold_tier_bricks_to_bring_offline` (brick_libs.py lines
693-754): same dispatch as the plain volume, over the cold-tier data. -/
def select_cold_tier_bricks_to_bring_offline_rng (env : ClusterEnv)
    (r : Rng) : Except PyError (List String × Rng) :=
  if !env.is_tiered then .ok ([], r)
  else if env.cold_tier_type = "Distribute" then .ok ([], r)
  else if env.cold_tier_type = "Replicate" ∨
      env.cold_tier_type = "Distributed-Replicate" then
    get_bricks_to_bring_offline_from_replicated_volume_rng
      env.cold_tier_subvols env.cold_replica_count
      env.cold_tier_quorum_info r
  else if env.cold_tier_type = "Disperse" ∨
      env.cold_tier_type = "Distributed-Disperse" then
    get_bricks_to_bring_offline_from_disperse_volume_rng
      env.cold_tier_subvols env.cold_redundancy_count r
  else .ok ([], r)

/-- `select_tier_volume_bricks_to_bring_offline` (brick_libs.py lines
601-638): a two-key dict, defaulted to empty lists, filled from the hot
and cold tier selectors when the volume info is available and the volume
is tiered. -/
def select_tier_volume_bricks_to_bring_offline_rng (env : ClusterEnv)
    (r : Rng) : Except PyError (FaultDict × Rng) :=
  let d0 : FaultDict :=
    [("hot_tier_bricks", .bricks []), ("cold_tier_bricks", .bricks [])]
  if env.volume_info.isNone then .ok (d0, r)
  else if env.is_tiered then
    match select_hot_tier_bricks_to_bring_offline_rng env r with
    | .error e => .error e
    | .ok h =>
      match select_cold_tier_bricks_to_bring_offline_rng env h.2 with
      | .error e => .error e
      | .ok c =>
        .ok ([("hot_tier_bricks", .bricks h.1),
              ("cold_tier_bricks", .bricks c.1)], c.2)
  else .ok (d0, r)

/-- The default dict `select_bricks_to_bring_offline` starts from
(brick_libs.py lines 513-519), in insertion order. -/
def defaultFaultDict : FaultDict :=
  [("is_tier", .bool false), ("hot_tier_bricks", .bricks []),
   ("cold_tier_bricks", .bricks []), ("volume_bricks", .bricks [])]

/-- `select_bricks_to_bring_offline` (brick_libs.py lines 493-536).  When
the volume is tiered the code sets `d['is_tier'] = True` and then rebinds
the whole dict to the tier selector's return value, so that four-key dict
(and the flag) is discarded; otherwise only `volume_bricks` is filled. -/
def select_bricks_to_bring_offline_rng (env : ClusterEnv) (r : Rng) :
    Except PyError (FaultDict × Rng) :=
  if env.volume_info.isNone then .ok (defaultFaultDict, r)
  else if env.is_tiered then
    select_tier_volume_bricks_to_bring_offline_rng env r
  else
    match select_volume_bricks_to_bring_offline_rng env r with
    | .error e => .error e
    | .ok v =>
      .ok ([("is_tier", .bool false), ("hot_tier_bricks", .bricks []),
            ("cold_tier_bricks", .bricks []),
            ("volume_bricks", .bricks v.1)], v.2)

/-- `select_bricks_to_bring_offline`, final random state dropped. -/
def select_bricks_to_bring_offline (env : ClusterEnv) (r : Rng) :
    Except PyError FaultDict :=
  (select_bricks_to_bring_offline_rng env r).map (fun p => p.1)

/-- `are_bricks_online` (brick_libs.py lines 370-409) over a status
snapshot: Python `None` (status fetch failed) propagates as `none`;
otherwise every listed brick must have status `1`. -/
def are_bricks_online (volume_status : Option (String → Int))
    (bricks_list : List String) : Option Bool :=
  match volume_status with
  | none => none
  | some status => some (bricks_list.all (fun brick => status brick == 1))

/-- Observable outcome of one `wait_for_bricks_to_be_online` run: the
returned boolean, how many status polls were issued, and the accumulated
elapsed counter (10 seconds per sleep). -/
structure WaitOutcome where
  result : Bool
  polls : Nat
  elapsed : Nat
deriving DecidableEq, Repr

/-- The `while counter < timeout` loop of `wait_for_bricks_to_be_online`
(brick_libs.py lines 886-904): poll, stop on a truthy status, otherwise
sleep 10 and add 10 to the counter.  A falsy status — Python `False` or
`None` — takes the same sleep-and-retry branch.  The fuel only bounds the
recursion; `fuel = timeout` is enough for every run since the counter
grows by 10 per iteration. -/
def waitLoop (statusAt : Nat → Option Bool) (timeout : Nat) :
    Nat → Nat → Nat → WaitOutcome
  | 0, counter, polls => ⟨false, polls, counter⟩
  | fuel + 1, counter, polls =>
    if counter < timeout then
      match statusAt polls with
      | some true => ⟨true, polls + 1, counter⟩
      | _ => waitLoop statusAt timeout fuel (counter + 10) (polls + 1)
    else ⟨false, polls, counter⟩

/-- `wait_for_bricks_to_be_online` (brick_libs.py lines 871-904):
`get_all_bricks` is the `all_bricks` argument (falsy means return False
at once); `snapshots i` is the volume status `get_volume_status` would
return at the i-th poll, consumed through `are_bricks_online`. -/
def wait_for_bricks_to_be_online (all_bricks : Option (List String))
    (snapshots : Nat → Option (String → Int)) (timeout : Nat) :
    WaitOutcome :=
  match all_bricks with
  | none => ⟨false, 0, 0⟩
  | some [] => ⟨false, 0, 0⟩
  | some bricks =>
    waitLoop (fun i => are_bricks_online (snapshots i) bricks)
      timeout timeout 0 0

/-- An all-zero random tape, used to evaluate the selectors at concrete
inputs. -/
def rng0 : Rng :=
  ⟨fun _ => 0, 0⟩

/-- A concrete non-tiered Replicate volume whose fixed quorum count equals
its replica count, so the computed offline limit is 0. -/
def envZeroLimit : ClusterEnv where
  volume_info := some ()
  is_tiered := false
  volume_type := "Replicate"
  replica_count := 2
  redundancy_count := 0
  volume_subvols := [["n1:/b1", "n2:/b1"]]
  volume_quorum_info := ⟨true, some "fixed", some 2⟩
  hot_tier_type := "Distribute"
  hot_replica_count := 0
  hot_tier_subvols := []
  hot_tier_quorum_info := ⟨false, none, none⟩
  cold_tier_type := "Distribute"
  cold_replica_count := 0
  cold_redundancy_count := 0
  cold_tier_subvols := []
  cold_tier_quorum_info := ⟨false, none, none⟩

/-- A concrete tiered volume with Distribute hot and cold tiers. -/
def envTiered : ClusterEnv where
  volume_info := some ()
  is_tiered := true
  volume_type := "Tier"
  replica_count := 0
  redundancy_count := 0
  volume_subvols := []
  volume_quorum_info := ⟨false, none, none⟩
  hot_tier_type := "Distribute"
  hot_replica_count := 0
  hot_tier_subvols := [["h1:/hb1", "h2:/hb1"]]
  hot_tier_quorum_info := ⟨false, none, none⟩
  cold_tier_type := "Distribute"
  cold_replica_count := 0
  cold_redundancy_count := 0
  cold_tier_subvols := [["c1:/cb1", "c2:/cb1"]]
  cold_tier_quorum_info := ⟨false, none, none⟩

/-- A concrete environment for a volume whose `get_volume_info` query
fails (nonexistent volume). -/
def envNoInfo : ClusterEnv where
  volume_info := none
  is_tiered := false
  volume_type := "Replicate"
  replica_count := 3
  redundancy_count := 0
  volume_subvols := [["n1:/b1", "n2:/b1", "n3:/b1"]]
  volume_quorum_info := ⟨true, some "auto", none⟩
  hot_tier_type := "Distribute"
  hot_replica_count := 0
  hot_tier_subvols := []
  hot_tier_quorum_info := ⟨false, none, none⟩
  cold_tier_type := "Distribute"
  cold_replica_count := 0
  cold_redundancy_count := 0
  cold_tier_subvols := []
  cold_tier_quorum_info := ⟨false, none, none⟩

/-- A concrete non-tiered Distribute volume. -/
def envDistribute : ClusterEnv where
  volume_info := some ()
  is_tiered := false
  volume_type := "Distribute"
  replica_count := 0
  redundancy_count := 0
  volume_subvols := [["n1:/b1", "n2:/b1", "n3:/b1"]]
  volume_quorum_info := ⟨false, none, none⟩
  hot_tier_type := "Distribute"
  hot_replica_count := 0
  hot_tier_subvols := []
  hot_tier_quorum_info := ⟨false, none, none⟩
  cold_tier_type := "Distribute"
  cold_replica_count := 0
  cold_redundancy_count := 0
  cold_tier_subvols := []
  cold_tier_quorum_info := ⟨false, none, none⟩

/-- A concrete non-tiered Replicate volume whose client quorum is not
applicable. -/
def envQuorumOff : ClusterEnv where
  volume_info := some ()
  is_tiered := false
  volume_type := "Replicate"
  replica_count := 3
  redundancy_count := 0
  volume_subvols := [["n1:/b1", "n2:/b1", "n3:/b1"]]
  volume_quorum_info := ⟨false, some "auto", none⟩
  hot_tier_type := "Distribute"
  hot_replica_count := 0
  hot_tier_subvols := []
  hot_tier_quorum_info := ⟨false, none, none⟩
  cold_tier_type := "Distribute"
  cold_replica_count := 0
  cold_redundancy_count := 0
  cold_tier_subvols := []
  cold_tier_quorum_info := ⟨false, none, none⟩

/-- The element at a position, consed onto the list with that position
erased, is a permutation of the list. -/
theorem get_cons_eraseIdx_perm {α : Type} (l : List α) (j : Nat)
    (h : j < l.length) : (l.get ⟨j, h⟩ :: l.eraseIdx j).Perm l := by
  conv_rhs => rw [← List.take_append_drop j l]
  rw [List.eraseIdx_eq_take_drop_succ]
  have hd : List.drop j l = l.get ⟨j, h⟩ :: List.drop (j + 1) l := by
    rw [List.drop_eq_getElem_cons h]
    rfl
  rw [hd]
  exact List.perm_middle.symm

theorem shuffleFuel_perm {α : Type} :
    ∀ (fuel : Nat) (l : List α) (r : Rng), l.length ≤ fuel →
      ((shuffleFuel fuel l r).1).Perm l
  | 0, l, _, h => by
    have : l = [] := List.eq_nil_of_length_eq_zero (Nat.le_zero.mp h)
    subst this
    simp [shuffleFuel]
  | fuel + 1, l, r, h => by
    rw [shuffleFuel]
    split
    · exact List.Perm.refl l
    next hne =>
      have hj : (r.next).1 % l.length < l.length :=
        Nat.mod_lt _ (Nat.pos_of_ne_zero hne)
      have hlen : (l.eraseIdx ((r.next).1 % l.length)).length ≤ fuel := by
        rw [List.length_eraseIdx]
        simp only [hj, if_true]
        omega
      have ih := shuffleFuel_perm fuel (l.eraseIdx ((r.next).1 % l.length))
        ((r.next).2) hlen
      exact (ih.cons _).trans (get_cons_eraseIdx_perm l _ hj)

/-- `shuffle` returns a permutation of its input. -/
theorem shuffle_perm {α : Type} (l : List α) (r : Rng) :
    ((shuffle l r).1).Perm l :=
  shuffleFuel_perm l.length l r (Nat.le_refl _)

theorem sampleFuel_subset {α : Type} :
    ∀ (k : Nat) (l : List α) (r : Rng) (x : α),
      x ∈ (sampleFuel k l r).1 → x ∈ l
  | 0, _, _, _, hx => by simp [sampleFuel] at hx
  | k + 1, l, r, x, hx => by
    rw [sampleFuel] at hx
    split at hx
    · simp at hx
    next hne =>
      have hj : (r.next).1 % l.length < l.length :=
        Nat.mod_lt _ (Nat.pos_of_ne_zero hne)
      simp only [List.mem_cons] at hx
      rcases hx with hx | hx
      · subst hx
        exact List.get_mem l _ _
      · exact (List.eraseIdx_sublist l _).mem
          (sampleFuel_subset k _ _ x hx)

theorem sampleFuel_length {α : Type} :
    ∀ (k : Nat) (l : List α) (r : Rng), k ≤ l.length →
      ((sampleFuel k l r).1).length = k
  | 0, _, _, _ => by simp [sampleFuel]
  | k + 1, l, r, h => by
    rw [sampleFuel]
    split
    next hz => omega
    next hne =>
      have hj : (r.next).1 % l.length < l.length :=
        Nat.mod_lt _ (Nat.pos_of_ne_zero hne)
      have hlen : k ≤ (l.eraseIdx ((r.next).1 % l.length)).length := by
        rw [List.length_eraseIdx]
        simp only [hj, if_true]
        omega
      simp [sampleFuel_length k _ _ hlen]

theorem sampleFuel_nodup {α : Type} :
    ∀ (k : Nat) (l : List α) (r : Rng), l.Nodup →
      ((sampleFuel k l r).1).Nodup
  | 0, _, _, _ => by simp [sampleFuel]
  | k + 1, l, r, hnd => by
    rw [sampleFuel]
    split
    · simp
    next hne =>
      have hj : (r.next).1 % l.length < l.length :=
        Nat.mod_lt _ (Nat.pos_of_ne_zero hne)
      have hperm := get_cons_eraseIdx_perm l _ hj
      have hcons : (l.get ⟨(r.next).1 % l.length, hj⟩ ::
          l.eraseIdx ((r.next).1 % l.length)).Nodup := hperm.symm.nodup hnd
      rw [List.nodup_cons] at hcons
      refine List.nodup_cons.mpr ⟨?_, sampleFuel_nodup k _ _ hcons.2⟩
      intro hmem
      exact hcons.1 (sampleFuel_subset k _ _ _ hmem)

theorem randint_one_le (limit : Int) (r : Rng) (h : 1 ≤ limit) :
    ∃ v r2, randint 1 limit r = .ok (v, r2) ∧ 1 ≤ v ∧ v ≤ limit := by
  refine ⟨1 + ((r.next).1 : Int) % (limit - 1 + 1), (r.next).2, ?_, ?_, ?_⟩
  · simp only [randint, if_neg (not_lt.mpr h)]
  · have : (0 : Int) ≤ ((r.next).1 : Int) % (limit - 1 + 1) := by
      apply Int.emod_nonneg
      omega
    omega
  · have : ((r.next).1 : Int) % (limit - 1 + 1) < limit - 1 + 1 := by
      apply Int.emod_lt_of_pos
      omega
    omega

theorem sample_ok {α : Type} (l : List α) (k : Int) (r : Rng)
    (h0 : 0 ≤ k) (h1 : k ≤ (l.length : Int)) :
    sample l k r = .ok (sampleFuel k.toNat l r) := by
  simp only [sample]
  rw [if_neg]
  push_neg
  exact ⟨h0, h1⟩

theorem selectLoop_spec {α : Type} [DecidableEq α] :
    ∀ (subvols_list : List (List α)) (limit : Int) (r : Rng),
    1 ≤ limit →
    (∀ g ∈ subvols_list, limit ≤ (g.length : Int) ∧ g.Nodup) →
    groupsDisjoint subvols_list →
    ∃ sel r2, selectLoop subvols_list limit r = .ok (sel, r2) ∧
      (∀ x ∈ sel, ∃ g, g ∈ subvols_list ∧ x ∈ g) ∧
      ∀ g ∈ subvols_list,
        1 ≤ (sel.filter (fun x => decide (x ∈ g))).length ∧
        ((sel.filter (fun x => decide (x ∈ g))).length : Int) ≤ limit ∧
        (sel.filter (fun x => decide (x ∈ g))).Nodup := by
  intro subvols_list
  induction subvols_list with
  | nil =>
    intro limit r _ _ _
    exact ⟨[], r, rfl, by simp, by simp⟩
  | cons subvol rest ih =>
    intro limit r hlim hg hdisj
    obtain ⟨hslen, hsnd⟩ := hg subvol (List.mem_cons_self _ _)
    have hdhead : ∀ g2 ∈ rest, ∀ x, x ∈ subvol → x ∉ g2 :=
      (List.pairwise_cons.mp hdisj).1
    have hdtail : groupsDisjoint rest := (List.pairwise_cons.mp hdisj).2
    set s := shuffle subvol r with hs
    have hperm : (s.1).Perm subvol := shuffle_perm subvol r
    have hlens : s.1.length = subvol.length := hperm.length_eq
    have hnds : s.1.Nodup := hperm.symm.nodup hsnd
    obtain ⟨v, r2, hrand, hv1, hv2⟩ := randint_one_le limit s.2 hlim
    have hv0 : (0 : Int) ≤ v := by omega
    have hvlen : v ≤ (s.1.length : Int) := by
      rw [hlens]
      omega
    have hsamp := sample_ok s.1 v r2 hv0 hvlen
    set q := sampleFuel v.toNat s.1 r2 with hq
    have hvnat : v.toNat ≤ s.1.length := by
      have := Int.toNat_of_nonneg hv0
      omega
    have hplen : q.1.length = v.toNat := sampleFuel_length _ _ _ hvnat
    have hpsub : ∀ x ∈ q.1, x ∈ subvol := by
      intro x hx
      exact hperm.mem_iff.mp (sampleFuel_subset _ _ _ x hx)
    have hpnd : q.1.Nodup := sampleFuel_nodup _ _ _ hnds
    obtain ⟨others, r4, hrest, hcov, hbounds⟩ :=
      ih limit q.2 hlim (fun g hgm => hg g (List.mem_cons_of_mem _ hgm))
        hdtail
    refine ⟨q.1 ++ others, r4, ?_, ?_, ?_⟩
    · simp only [selectLoop, ← hs, hrand, hsamp, ← hq, hrest]
    · intro x hx
      rcases List.mem_append.mp hx with hx | hx
      · exact ⟨subvol, List.mem_cons_self _ _, hpsub x hx⟩
      · obtain ⟨g, hgm, hxg⟩ := hcov x hx
        exact ⟨g, List.mem_cons_of_mem _ hgm, hxg⟩
    · intro g hgmem
      rcases List.mem_cons.mp hgmem with hgmem | hgmem
      · subst hgmem
        have hfp : q.1.filter (fun x => decide (x ∈ g)) = q.1 :=
          List.filter_eq_self.mpr (fun x hx => by
            simpa using hpsub x hx)
        have hfo : others.filter (fun x => decide (x ∈ g)) = [] :=
          List.filter_eq_nil_iff.mpr (fun x hx => by
            obtain ⟨g2, hg2, hxg2⟩ := hcov x hx
            simp only [decide_eq_true_eq]
            intro hxs
            exact hdhead g2 hg2 x hxs hxg2)
        rw [List.filter_append, hfp, hfo, List.append_nil]
        have hv1n : 1 ≤ v.toNat := by
          have := Int.toNat_of_nonneg hv0
          omega
        refine ⟨by omega, ?_, hpnd⟩
        rw [hplen]
        have := Int.toNat_of_nonneg hv0
        omega
      · have hfp : q.1.filter (fun x => decide (x ∈ g)) = [] :=
          List.filter_eq_nil_iff.mpr (fun x hx => by
            simp only [decide_eq_true_eq]
            exact hdhead g hgmem x (hpsub x hx))
        rw [List.filter_append, hfp, List.nil_append]
        exact hbounds g hgmem

theorem waitLoop_never (statusAt : Nat → Option Bool) (timeout : Nat)
    (h : ∀ i, statusAt i ≠ some true) :
    ∀ fuel counter polls, (timeout - counter + 9) / 10 ≤ fuel →
    waitLoop statusAt timeout fuel counter polls =
      ⟨false, polls + (timeout - counter + 9) / 10,
        counter + 10 * ((timeout - counter + 9) / 10)⟩ := by
  intro fuel
  induction fuel with
  | zero =>
    intro counter polls hfuel
    have hq : (timeout - counter + 9) / 10 = 0 := Nat.le_zero.mp hfuel
    simp [waitLoop, hq]
  | succ fuel ih =>
    intro counter polls hfuel
    by_cases hc : counter < timeout
    · have hq : (timeout - counter + 9) / 10 =
          (timeout - (counter + 10) + 9) / 10 + 1 := by omega
      have hstep : waitLoop statusAt timeout (fuel + 1) counter polls =
          waitLoop statusAt timeout fuel (counter + 10) (polls + 1) := by
        rcases hst : statusAt polls with _ | b
        · rw [waitLoop, if_pos hc, hst]
        · cases b
          · rw [waitLoop, if_pos hc, hst]
          · exact absurd hst (h polls)
      rw [hstep, ih (counter + 10) (polls + 1) (by omega), hq]
      congr 1 <;> omega
    · have hq : (timeout - counter + 9) / 10 = 0 := by omega
      rw [waitLoop, if_neg hc, hq]
      simp

/-- Claim C1: for every replicated topology (pairwise-disjoint,
duplicate-free subvolume groups, each at least as large as the limit)
whose computed offline limit is `L ≥ 1`,
`get_bricks_to_bring_offline_from_replicated_volume` succeeds on every
random tape, and its selection contains, for each subvolume group, at
least 1 and at most `L` bricks of that group, pairwise distinct. -/
theorem replicated_selection_safety
    (subvols_list : List (List String)) (replica_count : Int)
    (quorum_info : QuorumInfo) (L : Int) (r : Rng)
    (happ : quorum_info.is_quorum_applicable = true)
    (hlim : offline_bricks_limit replica_count quorum_info.quorum_type
      quorum_info.quorum_count = .ok (some L))
    (hL : 1 ≤ L)
    (hg : ∀ g ∈ subvols_list, L ≤ (g.length : Int) ∧ g.Nodup)
    (hdisj : groupsDisjoint subvols_list) :
    ∃ sel, get_bricks_to_bring_offline_from_replicated_volume subvols_list
        replica_count quorum_info r = .ok sel ∧
      ∀ g ∈ subvols_list,
        1 ≤ (sel.filter (fun x => decide (x ∈ g))).length ∧
        ((sel.filter (fun x => decide (x ∈ g))).length : Int) ≤ L ∧
        (sel.filter (fun x => decide (x ∈ g))).Nodup := by
  obtain ⟨sel, r2, hloop, _, hbounds⟩ :=
    selectLoop_spec subvols_list L r hL hg hdisj
  refine ⟨sel, ?_, hbounds⟩
  simp only [get_bricks_to_bring_offline_from_replicated_volume,
    get_bricks_to_bring_offline_from_replicated_volume_rng, happ, if_true,
    hlim, hloop, Except.map]

/-- Witness for C1: two replica-3 groups, FIXED quorum count 2, so the
computed limit is 1. -/
theorem replicated_selection_safety_witness :
    ∃ sel, get_bricks_to_bring_offline_from_replicated_volume
        [["h1:/b1", "h1:/b2", "h1:/b3"], ["h2:/b1", "h2:/b2", "h2:/b3"]] 3
        ⟨true, some "fixed", some 2⟩ rng0 = .ok sel ∧
      ∀ g ∈ [["h1:/b1", "h1:/b2", "h1:/b3"],
             ["h2:/b1", "h2:/b2", "h2:/b3"]],
        1 ≤ (sel.filter (fun x => decide (x ∈ g))).length ∧
        ((sel.filter (fun x => decide (x ∈ g))).length : Int) ≤ 1 ∧
        (sel.filter (fun x => decide (x ∈ g))).Nodup :=
  replicated_selection_safety _ 3 ⟨true, some "fixed", some 2⟩ 1 rng0 rfl
    rfl (by decide) (by decide) (by decide)

/-- Claim C2 (code bug): the offline limit is `replicaCount - count` for
FIXED-with-count and `ceil(replicaCount / 2)` for AUTO, as claimed; but
for quorum kind NONE (Python `None`) the claimed `replicaCount - 1`
branch is unreachable: `'fixed' in quorum_type` raises `TypeError` on
`None` before that `elif` is tested, and the exception escapes the
selector. -/
theorem quorum_limit_fixed_auto_none :
    (∀ rc c : Int, offline_bricks_limit rc (some "fixed") (some c) =
      .ok (some (rc - c))) ∧
    (∀ rc : Int, ∀ qc : Option Int,
      offline_bricks_limit rc (some "auto") qc =
        .ok (some (pyCeilHalf rc))) ∧
    (∀ rc : Int, ∀ qc : Option Int,
      offline_bricks_limit rc none qc = .error .typeError) ∧
    get_bricks_to_bring_offline_from_replicated_volume
      [["n1:/b1", "n2:/b1", "n3:/b1"]] 3 ⟨true, none, none⟩ rng0 =
      .error .typeError :=
  ⟨fun _ _ => rfl, fun _ _ => rfl, fun _ _ => rfl, rfl⟩

/-- Claim C3 (code bug): when the computed offline limit is 0 (FIXED
quorum count equal to the replica count), the group is not skipped: the
selector evaluates `random.randint(1, 0)`, which raises `ValueError`
instead of completing without failure. -/
theorem zero_limit_selection_raises :
    offline_bricks_limit 2 (some "fixed") (some 2) = .ok (some 0) ∧
    get_bricks_to_bring_offline_from_replicated_volume
      [["n1:/b1", "n2:/b1"]] 2 ⟨true, some "fixed", some 2⟩ rng0 =
      .error .valueError :=
  ⟨rfl, rfl⟩

/-- Counterexample to claim C4: when the status snapshot always fails
(`are_bricks_online` returns `None`), `wait_for_bricks_to_be_online`
with timeout 20 silently re-polls (2 polls) and its outcome is
byte-for-byte the outcome of an ordinary never-online timeout run — the
failure is neither surfaced nor distinct from a timeout. -/
theorem wait_fetch_failure_retries_cex :
    wait_for_bricks_to_be_online (some ["n1:/b1"]) (fun _ => none) 20 =
      ⟨false, 2, 20⟩ ∧
    wait_for_bricks_to_be_online (some ["n1:/b1"])
      (fun _ => some (fun _ => 0)) 20 = ⟨false, 2, 20⟩ :=
  ⟨rfl, rfl⟩

/-- Amended C4: a status-snapshot fetch failure is treated exactly like a
not-yet-online poll — `wait_for_bricks_to_be_online` sleeps and retries,
and a run whose every fetch fails is indistinguishable from a run whose
every poll reports bricks offline. -/
theorem wait_fetch_failure_behaves_as_timeout
    (all_bricks : Option (List String)) (timeout : Nat) :
    wait_for_bricks_to_be_online all_bricks (fun _ => none) timeout =
    wait_for_bricks_to_be_online all_bricks (fun _ => some (fun _ => 0))
      timeout := by
  match all_bricks with
  | none => rfl
  | some [] => rfl
  | some (b :: bs) =>
    have h1 : are_bricks_online none (b :: bs) ≠ some true := by
      simp [are_bricks_online]
    have h2 : are_bricks_online (some (fun _ => (0 : Int))) (b :: bs) ≠
        some true := by
      simp [are_bricks_online]
    simp only [wait_for_bricks_to_be_online]
    rw [waitLoop_never _ timeout (fun _ => h1) timeout 0 0 (by omega),
      waitLoop_never _ timeout (fun _ => h2) timeout 0 0 (by omega)]

/-- Counterexample to claim C5: `select_bricks_to_bring_offline` is not
total.  For an existing non-tiered Replicate volume whose fixed quorum
count equals its replica count, the offline limit is 0 and the inner
`random.randint(1, 0)` call raises `ValueError`, which escapes instead
of a dict being returned. -/
theorem select_bricks_raises_cex :
    select_bricks_to_bring_offline envZeroLimit rng0 =
      .error .valueError :=
  rfl

/-- Amended C5: when the volume info is unavailable (nonexistent volume)
`select_bricks_to_bring_offline` does return the default dict with empty
brick lists; totality fails only on quorum configurations that make the
inner selection raise. -/
theorem select_bricks_default_on_missing_volinfo (env : ClusterEnv)
    (r : Rng) (h : env.volume_info = none) :
    select_bricks_to_bring_offline env r = .ok defaultFaultDict := by
  simp [select_bricks_to_bring_offline, select_bricks_to_bring_offline_rng,
    h, Except.map]

/-- Witness for amended C5 at a concrete unavailable-volume environment. -/
theorem select_bricks_default_on_missing_volinfo_witness :
    select_bricks_to_bring_offline envNoInfo rng0 = .ok defaultFaultDict :=
  select_bricks_default_on_missing_volinfo envNoInfo rng0 rfl

/-- Claim C6: a Distribute-only topology always yields an empty selection,
and a replicated topology whose client quorum is not applicable yields an
empty selection. -/
theorem empty_selection_distribute_and_quorum_off (env : ClusterEnv)
    (r : Rng) :
    (env.volume_type = "Distribute" →
      select_volume_bricks_to_bring_offline env r = .ok []) ∧
    ((env.volume_type = "Replicate" ∨
        env.volume_type = "Distributed-Replicate") →
      env.volume_quorum_info.is_quorum_applicable = false →
      select_volume_bricks_to_bring_offline env r = .ok []) := by
  constructor
  · intro hd
    by_cases ht : env.is_tiered
    · simp [select_volume_bricks_to_bring_offline,
        select_volume_bricks_to_bring_offline_rng, ht, Except.map]
    · simp [select_volume_bricks_to_bring_offline,
        select_volume_bricks_to_bring_offline_rng, ht, hd, Except.map]
  · intro hrep hq
    by_cases ht : env.is_tiered
    · simp [select_volume_bricks_to_bring_offline,
        select_volume_bricks_to_bring_offline_rng, ht, Except.map]
    · have hnd : ¬ env.volume_type = "Distribute" := by
        rcases hrep with h | h <;> simp [h]
      simp [select_volume_bricks_to_bring_offline,
        select_volume_bricks_to_bring_offline_rng, ht, hnd, hrep,
        get_bricks_to_bring_offline_from_replicated_volume_rng, hq,
        Except.map]

/-- Witness for C6: a concrete Distribute volume and a concrete Replicate
volume with quorum not applicable. -/
theorem empty_selection_distribute_and_quorum_off_witness :
    select_volume_bricks_to_bring_offline envDistribute rng0 = .ok [] ∧
    select_volume_bricks_to_bring_offline envQuorumOff rng0 = .ok [] :=
  ⟨(empty_selection_distribute_and_quorum_off envDistribute rng0).1 rfl,
   (empty_selection_distribute_and_quorum_off envQuorumOff rng0).2
     (Or.inl rfl) rfl⟩

/-- Claim C7: when the first status snapshot already reports every brick
online, `wait_for_bricks_to_be_online` returns True after that single
poll with no sleep; when no snapshot ever reports all bricks online, it
returns False after exactly `ceil(timeout / 10)` polls, with accumulated
elapsed time of at least `timeout`. -/
theorem wait_convergence (bricks : List String)
    (snapshots : Nat → Option (String → Int)) (timeout : Nat)
    (hb : bricks ≠ []) :
    (∀ st, 0 < timeout → snapshots 0 = some st →
      (∀ b ∈ bricks, st b = 1) →
      wait_for_bricks_to_be_online (some bricks) snapshots timeout =
        ⟨true, 1, 0⟩) ∧
    ((∀ i, are_bricks_online (snapshots i) bricks ≠ some true) →
      wait_for_bricks_to_be_online (some bricks) snapshots timeout =
        ⟨false, (timeout + 9) / 10, 10 * ((timeout + 9) / 10)⟩ ∧
      timeout ≤ 10 * ((timeout + 9) / 10)) := by
  match bricks, hb with
  | b :: bs, _ =>
    constructor
    · intro st ht h0 hall
      have hstat : are_bricks_online (snapshots 0) (b :: bs) = some true := by
        rw [h0]
        simp only [are_bricks_online, Option.some.injEq, List.all_eq_true,
          beq_iff_eq]
        exact fun x hx => hall x hx
      match timeout, ht with
      | t + 1, _ =>
        simp only [wait_for_bricks_to_be_online]
        rw [waitLoop, if_pos (by omega), hstat]
    · intro hnever
      simp only [wait_for_bricks_to_be_online]
      rw [waitLoop_never _ timeout hnever timeout 0 0 (by omega)]
      constructor
      · congr 1 <;> omega
      · omega

/-- Witness for C7: an immediately-online source converges on the first
poll; an always-failing source with timeout 40 gives 4 polls, elapsed
40. -/
theorem wait_convergence_witness :
    wait_for_bricks_to_be_online (some ["n1:/b1"])
      (fun _ => some (fun _ => 1)) 30 = ⟨true, 1, 0⟩ ∧
    wait_for_bricks_to_be_online (some ["n1:/b1"]) (fun _ => none) 40 =
      ⟨false, 4, 40⟩ ∧
    40 ≤ 10 * ((40 + 9) / 10) := by
  refine ⟨?_, ?_, ?_⟩
  · exact (wait_convergence ["n1:/b1"] (fun _ => some (fun _ => 1)) 30
      (by decide)).1 (fun _ => 1) (by decide) rfl (fun b _ => rfl)
  · exact ((wait_convergence ["n1:/b1"] (fun _ => none) 40
      (by decide)).2 (by intro i; decide)).1
  · exact ((wait_convergence ["n1:/b1"] (fun _ => none) 40
      (by decide)).2 (by intro i; decide)).2

/-- Claim C8: for a disperse topology with redundancy count `R ≥ 1`
(pairwise-disjoint, duplicate-free groups of size at least `R`),
`get_bricks_to_bring_offline_from_disperse_volume` succeeds on every
random tape and selects, per subvolume group, between 1 and `R` distinct
bricks of that group. -/
theorem disperse_selection_safety
    (subvols_list : List (List String)) (redundancy_count : Int) (r : Rng)
    (hR : 1 ≤ redundancy_count)
    (hg : ∀ g ∈ subvols_list,
      redundancy_count ≤ (g.length : Int) ∧ g.Nodup)
    (hdisj : groupsDisjoint subvols_list) :
    ∃ sel, get_bricks_to_bring_offline_from_disperse_volume subvols_list
        redundancy_count r = .ok sel ∧
      ∀ g ∈ subvols_list,
        1 ≤ (sel.filter (fun x => decide (x ∈ g))).length ∧
        ((sel.filter (fun x => decide (x ∈ g))).length : Int) ≤
          redundancy_count ∧
        (sel.filter (fun x => decide (x ∈ g))).Nodup := by
  obtain ⟨sel, r2, hloop, _, hbounds⟩ :=
    selectLoop_spec subvols_list redundancy_count r hR hg hdisj
  refine ⟨sel, ?_, hbounds⟩
  simp only [get_bricks_to_bring_offline_from_disperse_volume,
    get_bricks_to_bring_offline_from_disperse_volume_rng, hloop,
    Except.map]

/-- Witness for C8: the claim's scenario, one group of 6 bricks with
redundancy count 2. -/
theorem disperse_selection_safety_witness :
    ∃ sel, get_bricks_to_bring_offline_from_disperse_volume
        [["d1:/b1", "d1:/b2", "d1:/b3", "d1:/b4", "d1:/b5", "d1:/b6"]] 2
        rng0 = .ok sel ∧
      ∀ g ∈ [["d1:/b1", "d1:/b2", "d1:/b3", "d1:/b4", "d1:/b5",
              "d1:/b6"]],
        1 ≤ (sel.filter (fun x => decide (x ∈ g))).length ∧
        ((sel.filter (fun x => decide (x ∈ g))).length : Int) ≤ 2 ∧
        (sel.filter (fun x => decide (x ∈ g))).Nodup :=
  disperse_selection_safety _ 2 rng0 (by decide) (by decide) (by decide)

/-- Claim C9: a FIXED quorum with no count present, and a quorum type
that is neither FIXED nor AUTO (nor Python `None`), both make the
replicated selector abandon the selection and return the empty list,
never a partial selection. -/
theorem replicated_invalid_quorum_empty
    (subvols_list : List (List String)) (replica_count : Int)
    (qt : String) (qc : Option Int) (r : Rng) :
    (pyIn "fixed" qt = true →
      get_bricks_to_bring_offline_from_replicated_volume subvols_list
        replica_count ⟨true, some qt, none⟩ r = .ok []) ∧
    (pyIn "fixed" qt = false → pyIn "auto" qt = false →
      get_bricks_to_bring_offline_from_replicated_volume subvols_list
        replica_count ⟨true, some qt, qc⟩ r = .ok []) := by
  constructor
  · intro hf
    simp [get_bricks_to_bring_offline_from_replicated_volume,
      get_bricks_to_bring_offline_from_replicated_volume_rng,
      offline_bricks_limit, hf, Except.map]
  · intro hf ha
    simp [get_bricks_to_bring_offline_from_replicated_volume,
      get_bricks_to_bring_offline_from_replicated_volume_rng,
      offline_bricks_limit, hf, ha, Except.map]

/-- Witness for C9: a FIXED quorum missing its count, and the
unrecognized quorum type string `invalid`. -/
theorem replicated_invalid_quorum_empty_witness :
    get_bricks_to_bring_offline_from_replicated_volume
      [["n1:/b1", "n2:/b1", "n3:/b1"]] 3 ⟨true, some "fixed", none⟩ rng0 =
      .ok [] ∧
    get_bricks_to_bring_offline_from_replicated_volume
      [["n1:/b1", "n2:/b1", "n3:/b1"]] 3 ⟨true, some "invalid", some 2⟩
      rng0 = .ok [] :=
  ⟨(replicated_invalid_quorum_empty _ 3 "fixed" none rng0).1 rfl,
   (replicated_invalid_quorum_empty _ 3 "invalid" (some 2) rng0).2 rfl
     rfl⟩

/-- Claim C10: for every tiered volume with volume info available, any
dict returned by `select_bricks_to_bring_offline` carries exactly the
keys `hot_tier_bricks` and `cold_tier_bricks`, in that order: the default
dict (whose `is_tier` flag was just set to True and which holds a
`volume_bricks` key) is replaced wholesale by the tier selector's return
value, so the flag is discarded and `volume_bricks` is absent. -/
theorem tiered_selection_keys (env : ClusterEnv) (r : Rng) (d : FaultDict)
    (hvi : env.volume_info.isNone = false)
    (ht : env.is_tiered = true)
    (hd : select_bricks_to_bring_offline env r = .ok d) :
    d.map Prod.fst = ["hot_tier_bricks", "cold_tier_bricks"] := by
  simp only [select_bricks_to_bring_offline,
    select_bricks_to_bring_offline_rng,
    select_tier_volume_bricks_to_bring_offline_rng, hvi, ht,
    Bool.false_eq_true, if_false, if_true] at hd
  split at hd
  · simp [Except.map] at hd
  · split at hd
    · simp [Except.map] at hd
    · simp only [Except.map, Except.ok.injEq] at hd
      rw [← hd]
      rfl

/-- Witness for C10 at a concrete tiered environment (Distribute hot and
cold tiers, so both selectors return empty lists). -/
theorem tiered_selection_keys_witness :
    ([("hot_tier_bricks", PyVal.bricks []),
      ("cold_tier_bricks", PyVal.bricks [])] : FaultDict).map Prod.fst =
      ["hot_tier_bricks", "cold_tier_bricks"] :=
  tiered_selection_keys envTiered rng0
    [("hot_tier_bricks", PyVal.bricks []),
     ("cold_tier_bricks", PyVal.bricks [])] rfl rfl rfl
